import Mathlib

/-!
Verification of the client-side token lifecycle manager of the blog
platform (crate `client`): the Claims decoder (`src/client/src/interceptor.rs`),
the token store and refresh coordinator (`src/client/src/token_manager.rs`),
and the HTTP transport shell (`src/client/src/http_client.rs`).

Modelling conventions:
* JWT strings are modelled abstractly by the inductive `Token`: a token is
  either structurally well-formed, carrying the claims payload that the
  external `jsonwebtoken` crate would extract, or malformed, in which case
  decoding fails.  This mirrors `decode_token_without_validation`, which is a
  thin wrapper over `jsonwebtoken::dangerous::insecure_decode`.
* Wall-clock reads (`Utc::now().timestamp()`) become explicit `Int`
  parameters.  `ensure_valid_token` reads the clock once before the lock and
  once inside it, so it receives two time parameters `now1`, `now2`.
* The `tokio` locks disappear in the sequential semantics; the exclusive
  refresh section is kept as a separate function `refreshSection` applied to
  the state observed at lock-acquisition time, so that interleavings where
  another task mutates the store between the unlocked snapshot and the lock
  are expressible.  The result record carries the list of arguments passed to
  `refresh_fn` and whether the exclusive section was entered.
* The optional `token_update_sender` notification channel is elided: sends
  ignore their own result and never influence control flow or state.
-/

namespace Blog

/-- Error type of the client, from `src/client/src/error.rs`. -/
inductive ClientError
  | NotFound
  | Unauthorized
  | InvalidRequest (msg : String)
  | InternalError (msg : String)
  | TransportError (msg : String)
  deriving DecidableEq

/-- JWT claims decoded client side, from `src/client/src/interceptor.rs`. -/
structure Claims where
  sub : String
  user_name : String
  exp : Int
  deriving DecidableEq

/-- Abstract JWT string: either structurally well-formed with its payload, or
malformed.  Stands for the `String` tokens of the source; the split reflects
whether `jsonwebtoken::dangerous::insecure_decode` succeeds on it. -/
inductive Token
  | wellFormed (sub user_name : String) (exp : Int)
  | malformed (raw : String)
  deriving DecidableEq

/-- `decode_token_without_validation` from `src/client/src/interceptor.rs`:
decodes the payload without signature verification; a decode failure is mapped
to `ClientError::InternalError("Failed to decode token: ...")`. -/
def decode_token_without_validation : Token → Except ClientError Claims
  | .wellFormed sub user_name exp => .ok ⟨sub, user_name, exp⟩
  | .malformed raw => .error (.InternalError ("Failed to decode token: " ++ raw))

/-- `Claims::expires_soon` from `src/client/src/interceptor.rs`:
`self.exp <= now + buffer_seconds`, with `now` passed explicitly in place of
the `Utc::now().timestamp()` call. -/
def Claims.expires_soon (c : Claims) (now buffer_seconds : Int) : Bool :=
  decide (c.exp ≤ now + buffer_seconds)

/-- Access/refresh token pair, from `src/client/src/types.rs`.  The refresh
token is never decoded client side, so it stays a plain string. -/
structure AuthData where
  access_token : Token
  refresh_token : String
  deriving DecidableEq

/-- State of `TokenManager` from `src/client/src/token_manager.rs`: the
`RwLock<Option<AuthData>>` cell and the configured refresh buffer.  The two
lock objects have no sequential content. -/
structure TokenManager where
  auth_data : Option AuthData
  token_refresh_buffer_seconds : Int
  deriving DecidableEq

/-- `TokenManager::new`. -/
def TokenManager.new (token_refresh_buffer_seconds : Int) : TokenManager :=
  ⟨none, token_refresh_buffer_seconds⟩

/-- `TokenManager::set_auth_data`: whole-pair replacement under the write
lock (notification send elided). -/
def TokenManager.set_auth_data (tm : TokenManager) (a : AuthData) : TokenManager :=
  ⟨some a, tm.token_refresh_buffer_seconds⟩

/-- `TokenManager::get_access_token`. -/
def TokenManager.get_access_token (tm : TokenManager) : Option Token :=
  tm.auth_data.map AuthData.access_token

/-- `TokenManager::get_refresh_token`. -/
def TokenManager.get_refresh_token (tm : TokenManager) : Option String :=
  tm.auth_data.map AuthData.refresh_token

/-- `TokenManager::get_auth_data`. -/
def TokenManager.get_auth_data (tm : TokenManager) : Option AuthData :=
  tm.auth_data

/-- Outcome of one `ensure_valid_token` call: the returned
`Result<(), ClientError>`, the post-call manager state, the arguments passed
to `refresh_fn` in order, and whether the exclusive refresh section
(`refresh_lock`) was entered. -/
structure EnsureResult where
  result : Except ClientError Unit
  state : TokenManager
  refresh_calls : List String
  acquired_refresh_lock : Bool

/-- The `refresh_fn` invocation at the end of the exclusive section of
`TokenManager::ensure_valid_token`: `refresh_fn(current_data.refresh_token)?`
followed by the wholesale store replacement on success. -/
def refreshCall (tm : TokenManager) (current_data : AuthData)
    (refresh_fn : String → Except ClientError AuthData) : EnsureResult :=
  match refresh_fn current_data.refresh_token with
  | .error e => ⟨.error e, tm, [current_data.refresh_token], true⟩
  | .ok new_auth_data =>
    ⟨.ok (), tm.set_auth_data new_auth_data, [current_data.refresh_token], true⟩

/-- Body of the exclusive section of `TokenManager::ensure_valid_token`
(`src/client/src/token_manager.rs`, the code after `refresh_lock.lock()`):
re-read `auth_data`; if absent, fall through to `Ok(())`; when the re-decode
succeeds and the claims are no longer expiring soon, return `Ok(())` without
refreshing (the double-checked skip); in every other case — claims still
expiring, or the re-decode failing — proceed to `refreshCall`.  `tm` is the
state observed at lock-acquisition time, `now2` the clock read of the
re-check. -/
def refreshSection (tm : TokenManager) (now2 : Int)
    (refresh_fn : String → Except ClientError AuthData) : EnsureResult :=
  match tm.auth_data with
  | none => ⟨.ok (), tm, [], true⟩
  | some current_data =>
    match decode_token_without_validation current_data.access_token with
    | .ok current_claims =>
      if current_claims.expires_soon now2 tm.token_refresh_buffer_seconds then
        refreshCall tm current_data refresh_fn
      else ⟨.ok (), tm, [], true⟩
    | .error _ => refreshCall tm current_data refresh_fn

/-- `TokenManager::ensure_valid_token` with the interleaving made explicit:
`snapshot` is the unlocked read of `auth_data` at the start of the call
(clock `now1`), and `tm_at_lock` is the manager state at the moment the
exclusive section is acquired (clock `now2`); another task may have mutated
the store in between.  If the snapshot is `None`, return `Ok(())`; if it does
not decode, propagate the error; if it is not expiring soon, return `Ok(())`
without touching the lock; otherwise run the exclusive section. -/
def ensure_valid_token_interleaved (snapshot : Option AuthData) (now1 : Int)
    (tm_at_lock : TokenManager) (now2 : Int)
    (refresh_fn : String → Except ClientError AuthData) : EnsureResult :=
  match snapshot with
  | none => ⟨.ok (), tm_at_lock, [], false⟩
  | some data =>
    match decode_token_without_validation data.access_token with
    | .error e => ⟨.error e, tm_at_lock, [], false⟩
    | .ok claims =>
      if claims.expires_soon now1 tm_at_lock.token_refresh_buffer_seconds then
        refreshSection tm_at_lock now2 refresh_fn
      else ⟨.ok (), tm_at_lock, [], false⟩

/-- `TokenManager::ensure_valid_token` run without interference: the
lock-time re-read observes the same state as the initial snapshot. -/
def TokenManager.ensure_valid_token (tm : TokenManager) (now1 now2 : Int)
    (refresh_fn : String → Except ClientError AuthData) : EnsureResult :=
  ensure_valid_token_interleaved tm.auth_data now1 tm now2 refresh_fn

/-- N concurrent callers of `ensure_valid_token` that all take their unlocked
snapshot before any of them enters the exclusive section (`snapshot` is that
common read), then pass through the mutex-serialised section one after the
other, each observing the store as left by its predecessors.  Returns the
final state, each caller's `(result, auth_data observed after its section)`
pair, and the total number of `refresh_fn` invocations. -/
def runConcurrent (snapshot : Option AuthData) (now : Int)
    (refresh_fn : String → Except ClientError AuthData) :
    TokenManager → Nat →
      TokenManager × List (Except ClientError Unit × Option AuthData) × Nat
  | tm, 0 => (tm, [], 0)
  | tm, n + 1 =>
    let r := ensure_valid_token_interleaved snapshot now tm now refresh_fn
    let rest := runConcurrent snapshot now refresh_fn r.state n
    (rest.1, (r.result, r.state.get_auth_data) :: rest.2.1,
      r.refresh_calls.length + rest.2.2)

/-- Client-side UUID, from the external `uuid` crate: kept as its canonical
string form. -/
def Uuid := String

/-- `Uuid::nil()`. -/
def Uuid.nil : Uuid := "00000000-0000-0000-0000-000000000000"

/-- Hex-digit test used by the UUID parser model. -/
def isHexDigit (ch : Char) : Bool :=
  ch.isDigit || (decide ('a' ≤ ch) && decide (ch ≤ 'f'))
    || (decide ('A' ≤ ch) && decide (ch ≤ 'F'))

/-- `Uuid::parse_str` of the external `uuid` crate, modelled for the
canonical hyphenated form 8-4-4-4-12 of hex digits (the only form the server
produces); anything else is rejected. -/
def uuidParseStr (s : String) : Option Uuid :=
  let parts := s.splitOn "-"
  if parts.map String.length == [8, 4, 4, 4, 12]
      && parts.all (fun p => p.toList.all isHexDigit)
  then some s else none

/-- `api::rest::TokenResponse`: body of a successful login/refresh response. -/
structure TokenResponse where
  access_token : Token
  refresh_token : String
  deriving DecidableEq

/-- `api::rest::PostResponse`: body describing one post.  The timestamp
fields stay raw strings; their RFC3339 parsing (external `chrono` crate, with
a `now()` fallback) feeds no verified property. -/
structure PostResponse where
  uuid : String
  title : String
  content : String
  created_at : String
  updated_at : String
  deriving DecidableEq

/-- One outgoing HTTP request of `HttpClient`, identified by endpoint and
payload (URL formatting elided). -/
inductive HttpRequest
  | refresh (refresh_token : String)
  | login (username password : String)
  | register (username email password : String)
  | create_post (title content : String)
  | get_post (post_id : String)
  | update_post (post_id title content : String)
  | delete_post (post_id : String)
  | list_posts (page_size : Nat) (page : Nat)
  deriving DecidableEq

/-- Successful response body, as seen after status handling. -/
inductive HttpResponse
  | token (t : TokenResponse)
  | post (p : PostResponse)
  | posts (ps : List PostResponse)
  | empty
  deriving DecidableEq

/-- The network: maps a request to a parsed successful body or a
`ClientError`.  This folds together `reqwest` transport failures, the
non-success-status mapping (`handle_error_response`, and the
`TransportError("Failed to refresh token: ...")` mapping of the refresh
endpoint), and JSON body parsing failures, all of which the source turns
into `ClientError` values before its own logic continues. -/
def HttpOracle := HttpRequest → Except ClientError HttpResponse

/-- State of `HttpClient` from `src/client/src/http_client.rs`; the
`reqwest::Client` itself is part of the oracle. -/
structure HttpClient where
  base_url : String
  token_manager : TokenManager

/-- Outcome of one `HttpClient` operation: the returned value or error, the
post-call client state, and the requests issued, in order. -/
structure HttpCall (α : Type) where
  result : Except ClientError α
  client : HttpClient
  requests : List HttpRequest

/-- `HttpClient::set_token`: stores the pair
`AuthData { access_token: token, refresh_token: String::new() }` with no
validation of the token. -/
def HttpClient.set_token (c : HttpClient) (token : Token) : HttpClient :=
  ⟨c.base_url, c.token_manager.set_auth_data ⟨token, ""⟩⟩

/-- `HttpClient::get_token` (the inherent method). -/
def HttpClient.get_token (c : HttpClient) : Option Token :=
  c.token_manager.get_access_token

/-- `HttpClient::refresh_auth_token_internal`: POST the refresh endpoint and
map the `TokenResponse` into an `AuthData`; a body of the wrong shape is a
JSON-parse failure, surfaced as a `TransportError` by the `reqwest` error
conversion. -/
def HttpClient.refresh_auth_token_internal (oracle : HttpOracle)
    (refresh_token : String) : Except ClientError AuthData :=
  match oracle (.refresh refresh_token) with
  | .error e => .error e
  | .ok (.token t) => .ok ⟨t.access_token, t.refresh_token⟩
  | .ok _ => .error (.TransportError "error decoding response body")

/-- `HttpClient::ensure_valid_token`: delegates to the token manager with
`refresh_auth_token_internal` as the refresh function. -/
def HttpClient.ensure_valid_token (c : HttpClient) (now1 now2 : Int)
    (oracle : HttpOracle) : HttpCall Unit :=
  let r := c.token_manager.ensure_valid_token now1 now2
    (HttpClient.refresh_auth_token_internal oracle)
  ⟨r.result, ⟨c.base_url, r.state⟩, r.refresh_calls.map HttpRequest.refresh⟩

/-- `HttpClient::login` (`src/client/src/http_client.rs`): POST credentials;
on success store the returned pair directly in the token manager, then decode
the access token for the user id, mapping any decode or UUID-parse failure to
`Uuid::nil()`.  Never touches `ensure_valid_token`. -/
def HttpClient.login (c : HttpClient) (oracle : HttpOracle)
    (username password : String) : HttpCall Uuid :=
  match oracle (.login username password) with
  | .error e => ⟨.error e, c, [.login username password]⟩
  | .ok (.token tr) =>
    let c1 : HttpClient :=
      ⟨c.base_url, c.token_manager.set_auth_data ⟨tr.access_token, tr.refresh_token⟩⟩
    let user_id : Uuid :=
      match decode_token_without_validation tr.access_token with
      | .ok claims => (uuidParseStr claims.sub).getD Uuid.nil
      | .error _ => Uuid.nil
    ⟨.ok user_id, c1, [.login username password]⟩
  | .ok _ =>
    ⟨.error (.TransportError "error decoding response body"), c,
      [.login username password]⟩

/-- `HttpClient::register`: POST the registration; no token interaction. -/
def HttpClient.register (c : HttpClient) (oracle : HttpOracle)
    (username email password : String) : HttpCall Unit :=
  match oracle (.register username email password) with
  | .error e => ⟨.error e, c, [.register username email password]⟩
  | .ok _ => ⟨.ok (), c, [.register username email password]⟩

/-- `HttpClient::setup_token`: `set_token` followed by
`ensure_valid_token`. -/
def HttpClient.setup_token (c : HttpClient) (now1 now2 : Int)
    (oracle : HttpOracle) (token : Token) : HttpCall Unit :=
  (c.set_token token).ensure_valid_token now1 now2 oracle

/-- Client-side `Post` (`src/client/src/types.rs`), timestamps kept as the
raw response strings (see `PostResponse`). -/
structure Post where
  id : Uuid
  title : String
  content : String
  created_at : String
  updated_at : String

/-- Conversion of a `PostResponse` into a client `Post`, as done inline by
`get_post`/`list_posts`: the UUID must parse, the timestamps fall back
silently. -/
def postOfResponse (p : PostResponse) : Except ClientError Post :=
  match uuidParseStr p.uuid with
  | none => .error (.InternalError ("Invalid UUID: " ++ p.uuid))
  | some id => .ok ⟨id, p.title, p.content, p.created_at, p.updated_at⟩

/-- `HttpClient::create_post`: `ensure_valid_token` first, propagating its
error without issuing the post request; then POST and parse the returned
post's UUID.  (Bearer-header construction is elided: `HeaderValue`
validation is a `reqwest` concern.) -/
def HttpClient.create_post (c : HttpClient) (now1 now2 : Int)
    (oracle : HttpOracle) (title content : String) : HttpCall Uuid :=
  let ev := c.ensure_valid_token now1 now2 oracle
  match ev.result with
  | .error e => ⟨.error e, ev.client, ev.requests⟩
  | .ok _ =>
    let req : HttpRequest := .create_post title content
    match oracle req with
    | .error e => ⟨.error e, ev.client, ev.requests ++ [req]⟩
    | .ok (.post p) =>
      match uuidParseStr p.uuid with
      | some id => ⟨.ok id, ev.client, ev.requests ++ [req]⟩
      | none =>
        ⟨.error (.InternalError ("Invalid UUID: " ++ p.uuid)), ev.client,
          ev.requests ++ [req]⟩
    | .ok _ =>
      ⟨.error (.TransportError "error decoding response body"), ev.client,
        ev.requests ++ [req]⟩

/-- `HttpClient::get_post`: `ensure_valid_token` first, then GET and convert
the response body. -/
def HttpClient.get_post (c : HttpClient) (now1 now2 : Int)
    (oracle : HttpOracle) (post_id : String) : HttpCall Post :=
  let ev := c.ensure_valid_token now1 now2 oracle
  match ev.result with
  | .error e => ⟨.error e, ev.client, ev.requests⟩
  | .ok _ =>
    let req : HttpRequest := .get_post post_id
    match oracle req with
    | .error e => ⟨.error e, ev.client, ev.requests ++ [req]⟩
    | .ok (.post p) => ⟨postOfResponse p, ev.client, ev.requests ++ [req]⟩
    | .ok _ =>
      ⟨.error (.TransportError "error decoding response body"), ev.client,
        ev.requests ++ [req]⟩

/-- `HttpClient::update_post`: `ensure_valid_token` first, then PUT; a
success status yields `Ok(())` with no body parsing. -/
def HttpClient.update_post (c : HttpClient) (now1 now2 : Int)
    (oracle : HttpOracle) (post_id title content : String) : HttpCall Unit :=
  let ev := c.ensure_valid_token now1 now2 oracle
  match ev.result with
  | .error e => ⟨.error e, ev.client, ev.requests⟩
  | .ok _ =>
    let req : HttpRequest := .update_post post_id title content
    match oracle req with
    | .error e => ⟨.error e, ev.client, ev.requests ++ [req]⟩
    | .ok _ => ⟨.ok (), ev.client, ev.requests ++ [req]⟩

/-- `HttpClient::delete_post`: `ensure_valid_token` first, then DELETE. -/
def HttpClient.delete_post (c : HttpClient) (now1 now2 : Int)
    (oracle : HttpOracle) (post_id : String) : HttpCall Unit :=
  let ev := c.ensure_valid_token now1 now2 oracle
  match ev.result with
  | .error e => ⟨.error e, ev.client, ev.requests⟩
  | .ok _ =>
    let req : HttpRequest := .delete_post post_id
    match oracle req with
    | .error e => ⟨.error e, ev.client, ev.requests ++ [req]⟩
    | .ok _ => ⟨.ok (), ev.client, ev.requests ++ [req]⟩

/-- `HttpClient::list_posts`: `ensure_valid_token` first, then GET the page
and convert each returned post. -/
def HttpClient.list_posts (c : HttpClient) (now1 now2 : Int)
    (oracle : HttpOracle) (page_size page : Nat) : HttpCall (List Post) :=
  let ev := c.ensure_valid_token now1 now2 oracle
  match ev.result with
  | .error e => ⟨.error e, ev.client, ev.requests⟩
  | .ok _ =>
    let req : HttpRequest := .list_posts page_size page
    match oracle req with
    | .error e => ⟨.error e, ev.client, ev.requests ++ [req]⟩
    | .ok (.posts ps) =>
      ⟨ps.mapM postOfResponse, ev.client, ev.requests ++ [req]⟩
    | .ok _ =>
      ⟨.error (.TransportError "error decoding response body"), ev.client,
        ev.requests ++ [req]⟩

/-- State of `GrpcClient` from `src/client/src/grpc_client.rs`; only the
parts the verified claims touch are modelled — its `set_token` mirrors the
HTTP one byte for byte. -/
structure GrpcClient where
  token_manager : TokenManager

/-- `GrpcClient::set_token`: stores
`AuthData { access_token: token, refresh_token: String::new() }` with no
validation, exactly as `HttpClient::set_token`. -/
def GrpcClient.set_token (c : GrpcClient) (token : Token) : GrpcClient :=
  ⟨c.token_manager.set_auth_data ⟨token, ""⟩⟩

/-- Concrete oracle for witnesses: the login endpoint answers with a token
pair whose access token does not decode (a corrupt server response); every
other endpoint answers with an empty body. -/
def badLoginOracle : HttpOracle := fun q =>
  match q with
  | .login _ _ => .ok (.token ⟨Token.malformed "srv", "RR"⟩)
  | _ => .ok .empty

/-! ### Case-analysis lemmas for the refresh coordinator -/

theorem interleaved_none (now1 : Int) (tm : TokenManager) (now2 : Int)
    (refresh_fn : String → Except ClientError AuthData) :
    ensure_valid_token_interleaved none now1 tm now2 refresh_fn =
      ⟨.ok (), tm, [], false⟩ := rfl

theorem interleaved_decode_error (now1 : Int) (tm : TokenManager) (now2 : Int)
    (refresh_fn : String → Except ClientError AuthData) (data : AuthData)
    (e : ClientError)
    (hdec : decode_token_without_validation data.access_token = .error e) :
    ensure_valid_token_interleaved (some data) now1 tm now2 refresh_fn =
      ⟨.error e, tm, [], false⟩ := by
  simp [ensure_valid_token_interleaved, hdec]

theorem interleaved_fresh (now1 : Int) (tm : TokenManager) (now2 : Int)
    (refresh_fn : String → Except ClientError AuthData) (data : AuthData)
    (claims : Claims)
    (hdec : decode_token_without_validation data.access_token = .ok claims)
    (hfresh : claims.expires_soon now1 tm.token_refresh_buffer_seconds = false) :
    ensure_valid_token_interleaved (some data) now1 tm now2 refresh_fn =
      ⟨.ok (), tm, [], false⟩ := by
  simp [ensure_valid_token_interleaved, hdec, hfresh]

theorem interleaved_expiring (now1 : Int) (tm : TokenManager) (now2 : Int)
    (refresh_fn : String → Except ClientError AuthData) (data : AuthData)
    (claims : Claims)
    (hdec : decode_token_without_validation data.access_token = .ok claims)
    (hexp : claims.expires_soon now1 tm.token_refresh_buffer_seconds = true) :
    ensure_valid_token_interleaved (some data) now1 tm now2 refresh_fn =
      refreshSection tm now2 refresh_fn := by
  simp [ensure_valid_token_interleaved, hdec, hexp]

theorem refreshSection_skip (tm : TokenManager) (now2 : Int)
    (refresh_fn : String → Except ClientError AuthData) (data : AuthData)
    (claims : Claims) (hd : tm.auth_data = some data)
    (hdec : decode_token_without_validation data.access_token = .ok claims)
    (hfresh : claims.expires_soon now2 tm.token_refresh_buffer_seconds = false) :
    refreshSection tm now2 refresh_fn = ⟨.ok (), tm, [], true⟩ := by
  simp [refreshSection, hd, hdec, hfresh]

theorem refreshSection_stale (tm : TokenManager) (now2 : Int)
    (refresh_fn : String → Except ClientError AuthData) (data : AuthData)
    (claims : Claims) (hd : tm.auth_data = some data)
    (hdec : decode_token_without_validation data.access_token = .ok claims)
    (hexp : claims.expires_soon now2 tm.token_refresh_buffer_seconds = true) :
    refreshSection tm now2 refresh_fn = refreshCall tm data refresh_fn := by
  simp [refreshSection, hd, hdec, hexp]

theorem refreshSection_undecodable (tm : TokenManager) (now2 : Int)
    (refresh_fn : String → Except ClientError AuthData) (data : AuthData)
    (e : ClientError) (hd : tm.auth_data = some data)
    (hdec : decode_token_without_validation data.access_token = .error e) :
    refreshSection tm now2 refresh_fn = refreshCall tm data refresh_fn := by
  simp [refreshSection, hd, hdec]

theorem refreshCall_ok (tm : TokenManager) (data : AuthData)
    (refresh_fn : String → Except ClientError AuthData) (new_auth : AuthData)
    (hf : refresh_fn data.refresh_token = .ok new_auth) :
    refreshCall tm data refresh_fn =
      ⟨.ok (), tm.set_auth_data new_auth, [data.refresh_token], true⟩ := by
  simp [refreshCall, hf]

theorem refreshCall_error (tm : TokenManager) (data : AuthData)
    (refresh_fn : String → Except ClientError AuthData) (e : ClientError)
    (hf : refresh_fn data.refresh_token = .error e) :
    refreshCall tm data refresh_fn = ⟨.error e, tm, [data.refresh_token], true⟩ := by
  simp [refreshCall, hf]

theorem refreshCall_calls (tm : TokenManager) (data : AuthData)
    (refresh_fn : String → Except ClientError AuthData) :
    (refreshCall tm data refresh_fn).refresh_calls = [data.refresh_token] := by
  unfold refreshCall
  cases refresh_fn data.refresh_token <;> rfl

/-! ### Claim theorems -/

/-- C5: for every `Claims` value and buffer, `expires_soon` returns true
exactly when `exp ≤ now + buffer` — boundary `exp = now + buffer` included —
and returns false exactly when `exp > now + buffer`. -/
theorem expires_soon_boundary_iff (c : Claims) (now buffer_seconds : Int) :
    (c.expires_soon now buffer_seconds = true ↔ c.exp ≤ now + buffer_seconds) ∧
    (c.expires_soon now buffer_seconds = false ↔ now + buffer_seconds < c.exp) := by
  constructor
  · simp [Claims.expires_soon]
  · simp [Claims.expires_soon]

/-- C6: when the store's `auth_data` is `None`, `ensure_valid_token` returns
success, never invokes `refresh_fn` (the call list is empty), leaves the
state unchanged, and never enters the exclusive section. -/
theorem ensure_valid_token_skips_when_unset (tm : TokenManager)
    (now1 now2 : Int) (refresh_fn : String → Except ClientError AuthData)
    (h : tm.auth_data = none) :
    tm.ensure_valid_token now1 now2 refresh_fn = ⟨.ok (), tm, [], false⟩ := by
  rw [TokenManager.ensure_valid_token, h]
  exact interleaved_none now1 tm now2 refresh_fn

/-- C6 witness: a freshly constructed manager has no `auth_data`, and the
call returns success without invoking the refresh function. -/
theorem ensure_valid_token_skips_when_unset_witness :
    (TokenManager.new 300).ensure_valid_token 0 5
        (fun _ => Except.ok ⟨Token.malformed "x", "r"⟩) =
      ⟨Except.ok (), TokenManager.new 300, [], false⟩ :=
  ensure_valid_token_skips_when_unset (TokenManager.new 300) 0 5 _ rfl

/-- C7: when the stored access token decodes and is not expiring soon at the
unlocked check, `ensure_valid_token` returns success without invoking
`refresh_fn` and without entering the exclusive refresh section
(`acquired_refresh_lock = false`). -/
theorem ensure_valid_token_fresh_no_lock (tm : TokenManager) (now1 now2 : Int)
    (refresh_fn : String → Except ClientError AuthData) (data : AuthData)
    (claims : Claims) (hd : tm.auth_data = some data)
    (hdec : decode_token_without_validation data.access_token = .ok claims)
    (hfresh : claims.expires_soon now1 tm.token_refresh_buffer_seconds = false) :
    tm.ensure_valid_token now1 now2 refresh_fn = ⟨.ok (), tm, [], false⟩ := by
  rw [TokenManager.ensure_valid_token, hd]
  exact interleaved_fresh now1 tm now2 refresh_fn data claims hdec hfresh

/-- C7 witness: a token expiring at time 1000, checked at time 0 with buffer
300, is left alone even for a refresh function that always fails. -/
theorem ensure_valid_token_fresh_no_lock_witness :
    (⟨some ⟨Token.wellFormed "u" "alice" 1000, "R"⟩, 300⟩ :
        TokenManager).ensure_valid_token 0 1
        (fun r => Except.error (ClientError.TransportError r)) =
      ⟨Except.ok (), ⟨some ⟨Token.wellFormed "u" "alice" 1000, "R"⟩, 300⟩, [],
        false⟩ :=
  ensure_valid_token_fresh_no_lock _ 0 1 _ ⟨Token.wellFormed "u" "alice" 1000, "R"⟩
    ⟨"u", "alice", 1000⟩ rfl rfl rfl

/-- C3: when `ensure_valid_token` did invoke `refresh_fn` (with argument
`rt`) and `refresh_fn rt` failed, that same error is returned and the stored
`AuthData` is unchanged from before the call. -/
theorem refresh_error_propagated_state_unchanged (tm : TokenManager)
    (now1 now2 : Int) (refresh_fn : String → Except ClientError AuthData)
    (rt : String) (e : ClientError)
    (hcall : (tm.ensure_valid_token now1 now2 refresh_fn).refresh_calls = [rt])
    (herr : refresh_fn rt = .error e) :
    (tm.ensure_valid_token now1 now2 refresh_fn).result = .error e ∧
    (tm.ensure_valid_token now1 now2 refresh_fn).state = tm := by
  simp only [TokenManager.ensure_valid_token] at hcall ⊢
  cases hd : tm.auth_data with
  | none =>
    rw [hd, interleaved_none] at hcall
    simp at hcall
  | some data =>
    rw [hd] at hcall
    cases hdec : decode_token_without_validation data.access_token with
    | error e2 =>
      rw [interleaved_decode_error now1 tm now2 refresh_fn data e2 hdec] at hcall
      simp at hcall
    | ok claims =>
      cases hexp : claims.expires_soon now1 tm.token_refresh_buffer_seconds with
      | false =>
        rw [interleaved_fresh now1 tm now2 refresh_fn data claims hdec hexp]
          at hcall
        simp at hcall
      | true =>
        rw [interleaved_expiring now1 tm now2 refresh_fn data claims hdec hexp]
          at hcall ⊢
        cases hexp2 : claims.expires_soon now2 tm.token_refresh_buffer_seconds with
        | false =>
          rw [refreshSection_skip tm now2 refresh_fn data claims hd hdec hexp2]
            at hcall
          simp at hcall
        | true =>
          rw [refreshSection_stale tm now2 refresh_fn data claims hd hdec hexp2]
            at hcall ⊢
          cases hf : refresh_fn data.refresh_token with
          | error e2 =>
            rw [refreshCall_error tm data refresh_fn e2 hf] at hcall ⊢
            have hrt : data.refresh_token = rt := by simpa using hcall
            rw [hrt] at hf
            rw [herr] at hf
            obtain rfl : e = e2 := Except.error.inj hf
            exact ⟨rfl, rfl⟩
          | ok na =>
            rw [refreshCall_ok tm data refresh_fn na hf] at hcall
            have hrt : data.refresh_token = rt := by simpa using hcall
            rw [hrt] at hf
            rw [herr] at hf
            simp at hf

/-- C3 witness: a stored expiring token whose refresh fails with a
`TransportError`; the error comes back and the stored pair is untouched. -/
theorem refresh_error_propagated_state_unchanged_witness :
    ((⟨some ⟨Token.wellFormed "u" "alice" 100, "R"⟩, 300⟩ :
        TokenManager).ensure_valid_token 0 0
        (fun r => Except.error (ClientError.TransportError r))).result =
      Except.error (ClientError.TransportError "R") ∧
    ((⟨some ⟨Token.wellFormed "u" "alice" 100, "R"⟩, 300⟩ :
        TokenManager).ensure_valid_token 0 0
        (fun r => Except.error (ClientError.TransportError r))).state =
      ⟨some ⟨Token.wellFormed "u" "alice" 100, "R"⟩, 300⟩ :=
  refresh_error_propagated_state_unchanged _ 0 0 _ "R"
    (ClientError.TransportError "R") rfl rfl

/-- C4: with a stored decodable, expiring-soon token and refresh token `R`,
a successful `refresh_fn R = Ok(new pair)` is invoked exactly once with
argument `R`, the call returns success, the store's pair is replaced
wholesale by the returned pair, and `get_access_token` afterwards returns
the new pair's access token. -/
theorem refresh_success_replaces_pair (tm : TokenManager) (now : Int)
    (refresh_fn : String → Except ClientError AuthData) (data : AuthData)
    (claims : Claims) (new_auth : AuthData)
    (hd : tm.auth_data = some data)
    (hdec : decode_token_without_validation data.access_token = .ok claims)
    (hexp : claims.expires_soon now tm.token_refresh_buffer_seconds = true)
    (hf : refresh_fn data.refresh_token = .ok new_auth) :
    tm.ensure_valid_token now now refresh_fn =
      ⟨.ok (), tm.set_auth_data new_auth, [data.refresh_token], true⟩ ∧
    (tm.ensure_valid_token now now refresh_fn).state.get_access_token =
      some new_auth.access_token := by
  have h1 : tm.ensure_valid_token now now refresh_fn =
      ⟨.ok (), tm.set_auth_data new_auth, [data.refresh_token], true⟩ := by
    simp only [TokenManager.ensure_valid_token]
    rw [hd, interleaved_expiring now tm now refresh_fn data claims hdec hexp,
      refreshSection_stale tm now refresh_fn data claims hd hdec hexp,
      refreshCall_ok tm data refresh_fn new_auth hf]
  refine ⟨h1, ?_⟩
  rw [h1]
  rfl

/-- C4 witness: the spec's scenario — access token expiring within the
buffer, refresh token `R`, refresh returning a fresh pair keeping `R`. -/
theorem refresh_success_replaces_pair_witness :
    (⟨some ⟨Token.wellFormed "u" "alice" 100, "R"⟩, 300⟩ :
        TokenManager).ensure_valid_token 0 0
        (fun r => Except.ok ⟨Token.wellFormed "u" "alice" 9000, r⟩) =
      ⟨Except.ok (),
        TokenManager.set_auth_data ⟨some ⟨Token.wellFormed "u" "alice" 100, "R"⟩, 300⟩
          ⟨Token.wellFormed "u" "alice" 9000, "R"⟩, ["R"], true⟩ ∧
    ((⟨some ⟨Token.wellFormed "u" "alice" 100, "R"⟩, 300⟩ :
        TokenManager).ensure_valid_token 0 0
        (fun r => Except.ok ⟨Token.wellFormed "u" "alice" 9000, r⟩)).state.get_access_token =
      some (Token.wellFormed "u" "alice" 9000) :=
  refresh_success_replaces_pair _ 0 _ ⟨Token.wellFormed "u" "alice" 100, "R"⟩
    ⟨"u", "alice", 100⟩ ⟨Token.wellFormed "u" "alice" 9000, "R"⟩ rfl rfl rfl rfl

/-- C2 counterexample: the claim that a decode failure is terminal and never
followed by a `refresh_fn` invocation on ANY path, including the re-decode
inside the exclusive section, is false.  Here the pre-lock snapshot held a
decodable expiring token, but by lock-acquisition time another task (e.g. a
`set_token` call, which validates nothing) replaced the store with an
undecodable token: the re-decode fails, the failure is silently ignored,
`refresh_fn` is invoked (with `"R"`), and the call returns success instead
of the decode error. -/
theorem decode_failure_after_lock_cex :
    decode_token_without_validation (Token.malformed "junk") =
      Except.error
        (ClientError.InternalError ("Failed to decode token: " ++ "junk")) ∧
    (ensure_valid_token_interleaved (some ⟨Token.wellFormed "u" "alice" 0, "R"⟩) 0
        (⟨some ⟨Token.malformed "junk", "R"⟩, 300⟩ : TokenManager) 0
        (fun r => Except.ok ⟨Token.wellFormed "u" "alice" 1000, r⟩)).refresh_calls =
      ["R"] ∧
    (ensure_valid_token_interleaved (some ⟨Token.wellFormed "u" "alice" 0, "R"⟩) 0
        (⟨some ⟨Token.malformed "junk", "R"⟩, 300⟩ : TokenManager) 0
        (fun r => Except.ok ⟨Token.wellFormed "u" "alice" 1000, r⟩)).result =
      Except.ok () :=
  ⟨rfl, rfl, rfl⟩

/-- C2 (amended): a decode failure of the pre-lock snapshot is terminal —
the error is propagated, `refresh_fn` is not invoked and the exclusive
section is not entered; but a decode failure at the re-decode inside the
exclusive section is silently ignored: the skip branch is simply not taken
and `refresh_fn` is invoked with the current refresh token. -/
theorem decode_failure_terminal_paths (tm tm2 : TokenManager)
    (now1 now2 now3 : Int)
    (refresh_fn refresh_fn2 : String → Except ClientError AuthData)
    (data data2 : AuthData) (e e2 : ClientError)
    (hd : tm.auth_data = some data)
    (hdec : decode_token_without_validation data.access_token = .error e)
    (hd2 : tm2.auth_data = some data2)
    (hdec2 : decode_token_without_validation data2.access_token = .error e2) :
    tm.ensure_valid_token now1 now2 refresh_fn = ⟨.error e, tm, [], false⟩ ∧
    (refreshSection tm2 now3 refresh_fn2).refresh_calls =
      [data2.refresh_token] := by
  constructor
  · simp only [TokenManager.ensure_valid_token]
    rw [hd]
    exact interleaved_decode_error now1 tm now2 refresh_fn data e hdec
  · rw [refreshSection_undecodable tm2 now3 refresh_fn2 data2 e2 hd2 hdec2]
    exact refreshCall_calls tm2 data2 refresh_fn2

/-- C2 (amended) witness: an undecodable stored token makes the call fail
with the decode error without any refresh; an undecodable token observed
inside the exclusive section still leads to a refresh attempt. -/
theorem decode_failure_terminal_paths_witness :
    (⟨some ⟨Token.malformed "bad", "R"⟩, 300⟩ :
        TokenManager).ensure_valid_token 0 0
        (fun r => Except.ok ⟨Token.wellFormed "u" "alice" 9000, r⟩) =
      ⟨Except.error (ClientError.InternalError ("Failed to decode token: " ++ "bad")),
        ⟨some ⟨Token.malformed "bad", "R"⟩, 300⟩, [], false⟩ ∧
    (refreshSection (⟨some ⟨Token.malformed "bad", "R2"⟩, 300⟩ : TokenManager) 0
        (fun r => Except.ok ⟨Token.wellFormed "u" "alice" 9000, r⟩)).refresh_calls =
      ["R2"] :=
  decode_failure_terminal_paths _ _ 0 0 0 _ _ ⟨Token.malformed "bad", "R"⟩
    ⟨Token.malformed "bad", "R2"⟩
    (ClientError.InternalError ("Failed to decode token: " ++ "bad"))
    (ClientError.InternalError ("Failed to decode token: " ++ "bad"))
    rfl rfl rfl rfl

/-- Helper for C1: once the store holds a decodable pair that is not
expiring soon, every further serialised waiter (whose stale snapshot still
said "expiring") enters the exclusive section, re-checks, skips the refresh,
returns success and observes that same pair. -/
theorem runConcurrent_stays_fresh (data : AuthData) (claims : Claims)
    (now : Int) (refresh_fn : String → Except ClientError AuthData)
    (new_auth : AuthData) (new_claims : Claims)
    (hdec : decode_token_without_validation data.access_token = .ok claims)
    (hdec2 : decode_token_without_validation new_auth.access_token = .ok new_claims)
    (s : TokenManager) (hs : s.auth_data = some new_auth)
    (hexp : claims.expires_soon now s.token_refresh_buffer_seconds = true)
    (hfresh : new_claims.expires_soon now s.token_refresh_buffer_seconds = false) :
    ∀ n, runConcurrent (some data) now refresh_fn s n =
      (s, List.replicate n (Except.ok (), some new_auth), 0) := by
  intro n
  induction n with
  | zero => rfl
  | succ m ih =>
    have hr : ensure_valid_token_interleaved (some data) now s now refresh_fn =
        ⟨.ok (), s, [], true⟩ := by
      rw [interleaved_expiring now s now refresh_fn data claims hdec hexp]
      exact refreshSection_skip s now refresh_fn new_auth new_claims hs hdec2 hfresh
    simp only [runConcurrent, hr, ih]
    simp [TokenManager.get_auth_data, hs, List.replicate]

/-- C1: N ≥ 1 callers of `ensure_valid_token` race while the stored token is
expiring soon — all take their snapshot before any refresh happens, then
pass through the mutex-serialised exclusive section one by one.  Provided
the refresh succeeds and returns a pair that is no longer expiring soon,
`refresh_fn` is invoked exactly once in total, every caller returns success,
and every caller observes the same resulting `AuthData` (the refreshed
pair). -/
theorem concurrent_refresh_collapses_to_one (tm : TokenManager) (now : Int)
    (refresh_fn : String → Except ClientError AuthData) (data : AuthData)
    (claims : Claims) (new_auth : AuthData) (new_claims : Claims) (n : Nat)
    (hd : tm.auth_data = some data)
    (hdec : decode_token_without_validation data.access_token = .ok claims)
    (hexp : claims.expires_soon now tm.token_refresh_buffer_seconds = true)
    (hf : refresh_fn data.refresh_token = .ok new_auth)
    (hdec2 : decode_token_without_validation new_auth.access_token = .ok new_claims)
    (hfresh : new_claims.expires_soon now tm.token_refresh_buffer_seconds = false)
    (hn : 0 < n) :
    runConcurrent tm.auth_data now refresh_fn tm n =
      (tm.set_auth_data new_auth,
        List.replicate n (Except.ok (), some new_auth), 1) := by
  obtain ⟨m, rfl⟩ : ∃ m, n = m + 1 := ⟨n - 1, by omega⟩
  rw [hd]
  have hr : ensure_valid_token_interleaved (some data) now tm now refresh_fn =
      ⟨.ok (), tm.set_auth_data new_auth, [data.refresh_token], true⟩ := by
    rw [interleaved_expiring now tm now refresh_fn data claims hdec hexp,
      refreshSection_stale tm now refresh_fn data claims hd hdec hexp,
      refreshCall_ok tm data refresh_fn new_auth hf]
  have hrest := runConcurrent_stays_fresh data claims now refresh_fn new_auth
    new_claims hdec hdec2 (tm.set_auth_data new_auth) rfl hexp hfresh m
  simp only [runConcurrent, hr, hrest]
  simp [TokenManager.set_auth_data, TokenManager.get_auth_data, List.replicate]

/-- C1 witness: three racing callers over an expiring token; one refresh
call total, all three succeed and observe the refreshed pair. -/
theorem concurrent_refresh_collapses_to_one_witness :
    0 < 3 ∧
    runConcurrent (⟨some ⟨Token.wellFormed "u" "alice" 100, "R"⟩, 300⟩ :
          TokenManager).auth_data 0
        (fun _ => Except.ok ⟨Token.wellFormed "u" "alice" 9000, "R2"⟩)
        ⟨some ⟨Token.wellFormed "u" "alice" 100, "R"⟩, 300⟩ 3 =
      (TokenManager.set_auth_data
          ⟨some ⟨Token.wellFormed "u" "alice" 100, "R"⟩, 300⟩
          ⟨Token.wellFormed "u" "alice" 9000, "R2"⟩,
        List.replicate 3
          (Except.ok (), some ⟨Token.wellFormed "u" "alice" 9000, "R2"⟩),
        1) :=
  ⟨by decide,
    concurrent_refresh_collapses_to_one _ 0 _
      ⟨Token.wellFormed "u" "alice" 100, "R"⟩ ⟨"u", "alice", 100⟩
      ⟨Token.wellFormed "u" "alice" 9000, "R2"⟩ ⟨"u", "alice", 9000⟩ 3
      rfl rfl rfl rfl rfl rfl (by decide)⟩

/-- C8 counterexample: `set_token` stores an undecodable token while
surfacing no error — its signature carries no error at all — so the claimed
invariant "if `auth_data` is `Some`, its access token is decodable" is
violated in a state reachable through the public API. -/
theorem undecodable_token_stored_cex :
    ((⟨"http://s", TokenManager.new 300⟩ : HttpClient).set_token
        (Token.malformed "junk")).token_manager.auth_data =
      some ⟨Token.malformed "junk", ""⟩ ∧
    decode_token_without_validation (Token.malformed "junk") =
      Except.error
        (ClientError.InternalError ("Failed to decode token: " ++ "junk")) :=
  ⟨rfl, rfl⟩

/-- C8 (amended): the invariant does not hold — `set_token` stores any token
without decoding it, and `login` stores the server-returned pair
unconditionally, mapping a decode failure of the access token to
`Uuid::nil()` instead of an error; of the storing operations only
`setup_token` surfaces the decode failure (through the `ensure_valid_token`
it runs after storing), and even then the undecodable token remains
stored. -/
theorem token_storing_operations_validation (c : HttpClient) (t : Token)
    (now1 now2 : Int) (oracle : HttpOracle) (e e2 : ClientError)
    (username password : String) (tr : TokenResponse)
    (hdec : decode_token_without_validation t = .error e)
    (ho : oracle (.login username password) = .ok (.token tr))
    (hdec2 : decode_token_without_validation tr.access_token = .error e2) :
    (c.set_token t).token_manager.auth_data = some ⟨t, ""⟩ ∧
    (c.setup_token now1 now2 oracle t).result = .error e ∧
    (c.setup_token now1 now2 oracle t).client.token_manager.auth_data =
      some ⟨t, ""⟩ ∧
    (c.login oracle username password).result = .ok Uuid.nil ∧
    (c.login oracle username password).client.token_manager.auth_data =
      some ⟨tr.access_token, tr.refresh_token⟩ := by
  have he : (c.set_token t).token_manager.ensure_valid_token now1 now2
      (HttpClient.refresh_auth_token_internal oracle) =
      ⟨.error e, (c.set_token t).token_manager, [], false⟩ := by
    simp only [TokenManager.ensure_valid_token]
    exact interleaved_decode_error now1 _ now2 _ ⟨t, ""⟩ e hdec
  refine ⟨rfl, ?_, ?_, ?_, ?_⟩
  · simp only [HttpClient.setup_token, HttpClient.ensure_valid_token, he]
  · simp only [HttpClient.setup_token, HttpClient.ensure_valid_token, he]
    rfl
  · simp only [HttpClient.login, ho, hdec2]
  · simp only [HttpClient.login, ho]
    rfl

/-- C8 (amended) witness: a malformed token passes straight through
`set_token`; `setup_token` errors but keeps it stored; a login answered with
a corrupt access token returns `Ok(Uuid::nil())` and stores the pair. -/
theorem token_storing_operations_validation_witness :
    ((⟨"http://s", TokenManager.new 300⟩ : HttpClient).set_token
        (Token.malformed "junk")).token_manager.auth_data =
      some ⟨Token.malformed "junk", ""⟩ ∧
    ((⟨"http://s", TokenManager.new 300⟩ : HttpClient).setup_token 0 0
        badLoginOracle (Token.malformed "junk")).result =
      Except.error
        (ClientError.InternalError ("Failed to decode token: " ++ "junk")) ∧
    ((⟨"http://s", TokenManager.new 300⟩ : HttpClient).setup_token 0 0
        badLoginOracle (Token.malformed "junk")).client.token_manager.auth_data =
      some ⟨Token.malformed "junk", ""⟩ ∧
    ((⟨"http://s", TokenManager.new 300⟩ : HttpClient).login badLoginOracle
        "alice" "pw").result = .ok Uuid.nil ∧
    ((⟨"http://s", TokenManager.new 300⟩ : HttpClient).login badLoginOracle
        "alice" "pw").client.token_manager.auth_data =
      some ⟨Token.malformed "srv", "RR"⟩ :=
  token_storing_operations_validation _ (Token.malformed "junk") 0 0
    badLoginOracle
    (ClientError.InternalError ("Failed to decode token: " ++ "junk"))
    (ClientError.InternalError ("Failed to decode token: " ++ "srv"))
    "alice" "pw" ⟨Token.malformed "srv", "RR"⟩ rfl rfl rfl

/-- C9: each per-resource CRUD operation runs `ensure_valid_token` first and,
when it fails, returns its error having issued no request beyond those of the
refresh attempt itself; `login` and `register` issue exactly their own
request — never a refresh — and `login` populates the token store directly
from the response pair while `register` leaves the client untouched. -/
theorem crud_gated_by_ensure_valid_token (c : HttpClient) (now1 now2 : Int)
    (oracle : HttpOracle) (e : ClientError)
    (title content post_id username email password : String)
    (page_size page : Nat) (tr : TokenResponse)
    (h : (c.ensure_valid_token now1 now2 oracle).result = .error e)
    (ho : oracle (.login username password) = .ok (.token tr)) :
    ((c.create_post now1 now2 oracle title content).result = .error e ∧
      (c.create_post now1 now2 oracle title content).requests =
        (c.ensure_valid_token now1 now2 oracle).requests) ∧
    ((c.get_post now1 now2 oracle post_id).result = .error e ∧
      (c.get_post now1 now2 oracle post_id).requests =
        (c.ensure_valid_token now1 now2 oracle).requests) ∧
    ((c.update_post now1 now2 oracle post_id title content).result = .error e ∧
      (c.update_post now1 now2 oracle post_id title content).requests =
        (c.ensure_valid_token now1 now2 oracle).requests) ∧
    ((c.delete_post now1 now2 oracle post_id).result = .error e ∧
      (c.delete_post now1 now2 oracle post_id).requests =
        (c.ensure_valid_token now1 now2 oracle).requests) ∧
    ((c.list_posts now1 now2 oracle page_size page).result = .error e ∧
      (c.list_posts now1 now2 oracle page_size page).requests =
        (c.ensure_valid_token now1 now2 oracle).requests) ∧
    ((c.login oracle username password).requests =
        [HttpRequest.login username password] ∧
      (c.login oracle username password).client.token_manager.auth_data =
        some ⟨tr.access_token, tr.refresh_token⟩) ∧
    ((c.register oracle username email password).requests =
        [HttpRequest.register username email password] ∧
      (c.register oracle username email password).client = c) := by
  refine ⟨⟨?_, ?_⟩, ⟨?_, ?_⟩, ⟨?_, ?_⟩, ⟨?_, ?_⟩, ⟨?_, ?_⟩, ⟨?_, ?_⟩, ⟨?_, ?_⟩⟩
  · simp only [HttpClient.create_post, h]
  · simp only [HttpClient.create_post, h]
  · simp only [HttpClient.get_post, h]
  · simp only [HttpClient.get_post, h]
  · simp only [HttpClient.update_post, h]
  · simp only [HttpClient.update_post, h]
  · simp only [HttpClient.delete_post, h]
  · simp only [HttpClient.delete_post, h]
  · simp only [HttpClient.list_posts, h]
  · simp only [HttpClient.list_posts, h]
  · simp only [HttpClient.login, ho]
  · simp only [HttpClient.login, ho]
    rfl
  · unfold HttpClient.register
    cases oracle (.register username email password) <;> rfl
  · unfold HttpClient.register
    cases oracle (.register username email password) <;> rfl

/-- C9 witness: a client holding an undecodable token — `ensure_valid_token`
fails — propagates that failure from `create_post` without contacting the
server. -/
theorem crud_gated_by_ensure_valid_token_witness :
    ((⟨"http://s", ⟨some ⟨Token.malformed "bad", "R"⟩, 300⟩⟩ :
        HttpClient).create_post 0 0 badLoginOracle "t" "c").result =
      Except.error
        (ClientError.InternalError ("Failed to decode token: " ++ "bad")) :=
  (crud_gated_by_ensure_valid_token
    (⟨"http://s", ⟨some ⟨Token.malformed "bad", "R"⟩, 300⟩⟩ : HttpClient) 0 0
    badLoginOracle
    (ClientError.InternalError ("Failed to decode token: " ++ "bad"))
    "t" "c" "p" "alice" "a@b" "pw" 1 0
    ⟨Token.malformed "srv", "RR"⟩ rfl rfl).1.1

/-- C10: `HttpClient::set_token` and `GrpcClient::set_token` store
`AuthData { access_token: t, refresh_token: "" }` — a whole-pair replace
with an empty-string refresh token — so `get_refresh_token` afterwards
returns `Some("")` rather than `None`; `setup_token` with a fresh token
succeeds and still leaves `Some("")`; and when the stored token is expiring
soon, the subsequent refresh is attempted with the empty string as the
refresh token. -/
theorem set_token_stores_empty_refresh_token (c : HttpClient) (g : GrpcClient)
    (t : Token) (claims : Claims) (nowF nowE1 nowE2 : Int)
    (oracle : HttpOracle) (refresh_fn : String → Except ClientError AuthData)
    (hdec : decode_token_without_validation t = .ok claims)
    (hfresh :
      claims.expires_soon nowF c.token_manager.token_refresh_buffer_seconds = false)
    (hexp1 :
      claims.expires_soon nowE1 c.token_manager.token_refresh_buffer_seconds = true)
    (hexp2 :
      claims.expires_soon nowE2 c.token_manager.token_refresh_buffer_seconds = true) :
    (c.set_token t).token_manager.auth_data = some ⟨t, ""⟩ ∧
    (g.set_token t).token_manager.auth_data = some ⟨t, ""⟩ ∧
    (c.set_token t).token_manager.get_refresh_token = some "" ∧
    (c.setup_token nowF nowF oracle t).result = .ok () ∧
    (c.setup_token nowF nowF oracle t).client.token_manager.get_refresh_token =
      some "" ∧
    ((c.set_token t).token_manager.ensure_valid_token nowE1 nowE2
        refresh_fn).refresh_calls = [""] := by
  have he : (c.set_token t).token_manager.ensure_valid_token nowF nowF
      (HttpClient.refresh_auth_token_internal oracle) =
      ⟨.ok (), (c.set_token t).token_manager, [], false⟩ := by
    simp only [TokenManager.ensure_valid_token]
    exact interleaved_fresh nowF _ nowF _ ⟨t, ""⟩ claims hdec hfresh
  refine ⟨rfl, rfl, rfl, ?_, ?_, ?_⟩
  · simp only [HttpClient.setup_token, HttpClient.ensure_valid_token, he]
  · simp only [HttpClient.setup_token, HttpClient.ensure_valid_token, he]
    rfl
  · show (ensure_valid_token_interleaved (some ⟨t, ""⟩) nowE1
        (c.set_token t).token_manager nowE2 refresh_fn).refresh_calls = [""]
    rw [interleaved_expiring nowE1 ((c.set_token t).token_manager) nowE2
        refresh_fn ⟨t, ""⟩ claims hdec hexp1,
      refreshSection_stale ((c.set_token t).token_manager) nowE2 refresh_fn
        ⟨t, ""⟩ claims rfl hdec hexp2]
    exact refreshCall_calls _ ⟨t, ""⟩ refresh_fn

/-- C10 witness: a fresh well-formed token set via `set_token`/`setup_token`
leaves the refresh token `Some("")`; once it is expiring, the refresh is
attempted with the empty string. -/
theorem set_token_stores_empty_refresh_token_witness :
    ((⟨"http://s", TokenManager.new 300⟩ : HttpClient).set_token
        (Token.wellFormed "u" "alice" 1000)).token_manager.auth_data =
      some ⟨Token.wellFormed "u" "alice" 1000, ""⟩ ∧
    ((⟨TokenManager.new 300⟩ : GrpcClient).set_token
        (Token.wellFormed "u" "alice" 1000)).token_manager.auth_data =
      some ⟨Token.wellFormed "u" "alice" 1000, ""⟩ ∧
    ((⟨"http://s", TokenManager.new 300⟩ : HttpClient).set_token
        (Token.wellFormed "u" "alice" 1000)).token_manager.get_refresh_token =
      some "" ∧
    ((⟨"http://s", TokenManager.new 300⟩ : HttpClient).setup_token 0 0
        badLoginOracle (Token.wellFormed "u" "alice" 1000)).result =
      Except.ok () ∧
    ((⟨"http://s", TokenManager.new 300⟩ : HttpClient).setup_token 0 0
        badLoginOracle
        (Token.wellFormed "u" "alice" 1000)).client.token_manager.get_refresh_token =
      some "" ∧
    (((⟨"http://s", TokenManager.new 300⟩ : HttpClient).set_token
        (Token.wellFormed "u" "alice" 1000)).token_manager.ensure_valid_token
        900 900 (fun r => Except.error (ClientError.TransportError r))).refresh_calls =
      [""] :=
  set_token_stores_empty_refresh_token _ _ (Token.wellFormed "u" "alice" 1000)
    ⟨"u", "alice", 1000⟩ 0 900 900 badLoginOracle
    (fun r => Except.error (ClientError.TransportError r)) rfl rfl rfl rfl

end Blog
